import Mathlib

/-!
Verification development for the voice-message transcription pipeline
(`src/cogs/transcribe.py`).  Each Python function relevant to the verified
claims is embedded as an executable Lean definition over `List Char` /
`String`, `Nat`, `Int` and `Option`/`Except` (for nullable values and
exceptions).  The source's word timestamps are floating-point seconds; the
embedding represents them as exact integers in milliseconds.  The formatter
only ever subtracts and order-compares timestamps, and on every value
appearing in the claims (multiples of half a second) both operations are
exact in floating point and order-isomorphic to their integer-millisecond
counterparts.  Definitions are translated from the
source; the few definitions translated instead from the specification's
words are marked `Modelled from the spec:` in their doc comment.
-/

/-! Section: models of the Python string primitives used by the cog. -/

/-- Model of Python `str.strip()` on the character list of a string
(whitespace removed from both ends). -/
def stripChars (cs : List Char) : List Char :=
  ((cs.dropWhile Char.isWhitespace).reverse.dropWhile Char.isWhitespace).reverse

/-- Model of Python `str.strip()`. -/
def stripStr (s : String) : String := String.mk (stripChars s.data)

/-- Helper for `collapseWS`: replaces each maximal run of whitespace by a
single space, as `re.sub(r"\s+", " ", ·)` does.  The boolean records whether
the previous character belonged to a whitespace run. -/
def collapseAux : Bool → List Char → List Char
  | _, [] => []
  | inRun, c :: cs =>
    if c.isWhitespace then
      if inRun then collapseAux true cs else ' ' :: collapseAux true cs
    else c :: collapseAux false cs

/-- Model of Python `re.sub(r"\s+", " ", s)`. -/
def collapseWS (s : String) : String := String.mk (collapseAux false s.data)

/-! Section: Paragraph Formatter (`_format_paragraphs_words`,
transcribe.py lines 44-103), embedded over integer-millisecond timestamps. -/

/-- Configuration default `WHISPER_PARAGRAPH_GAP` (transcribe.py line 34):
1.0 seconds, represented as 1000 milliseconds. -/
def PARA_GAP : Int := 1000

/-- Configuration default `WHISPER_PARAGRAPH_MIN_LEN` (transcribe.py line 38). -/
def PARA_MIN_LEN : Nat := 40

/-- The characters of `TERMINAL_PUNCT = ".!?…"` (transcribe.py line 42). -/
def TERMINAL_PUNCT : List Char := ['.', '!', '?', '…']

/-- A timed word as consumed by `_format_paragraphs_words`: the duck-typed
objects carry attributes `word`, `start`, `end` (here `stop`, since `end` is
reserved in Lean); `start`/`end` may be absent. -/
structure WordTiming where
  word : String
  start : Option Int
  stop : Option Int
deriving DecidableEq

/-- Loop state of `_format_paragraphs_words`: committed paragraphs `paras`,
current buffer `cur` with its character count `curLen`, the most recently
recorded end timestamp `lastEnd` (only updated when a word has an `end`,
line 85-86), and the text of the previous appended word. -/
structure FmtState where
  paras : List (List String)
  cur : List String
  curLen : Nat
  lastEnd : Option Int
  lastWordText : String
deriving DecidableEq

/-- Initial formatter state. -/
def initFmtState : FmtState := ⟨[], [], 0, none, ""⟩

/-- Model of `last_word_text[-1:] in TERMINAL_PUNCT` (line 78).  Note the
Python idiom: for an empty string the slice is `""`, and the empty string is
a substring of every string, so the test is `True`; otherwise it asks
whether the final character is terminal punctuation. -/
def endsTerminalPy (s : String) : Bool :=
  match s.data.getLast? with
  | none => true
  | some c => c ∈ TERMINAL_PUNCT

/-- Model of the nested `commit()` (lines 61-66): append the buffer to the
committed paragraphs when nonempty and reset it. -/
def commitPara (st : FmtState) : FmtState :=
  if st.cur = [] then st
  else { st with paras := st.paras ++ [st.cur], cur := [], curLen := 0 }

/-- Gap computation of line 74: `start - last_end` when both are present,
otherwise `0.0`.  `lastEnd` is the end of the most recent word that carried
an end timestamp (a missing `end` leaves the previous value in place). -/
def wordGap (st : FmtState) (w : WordTiming) : Int :=
  match w.start, st.lastEnd with
  | some s, some e => s - e
  | _, _ => 0

/-- One iteration of the `for w in words` loop (lines 68-86): empty word
texts are skipped entirely; a split commits the buffer when the gap exceeds
the threshold and the previous word ended in terminal punctuation or the
buffer already reached the minimum length; the word is then appended and
`lastEnd` is updated only when the word has an end timestamp. -/
def stepWord (gapT : Int) (minLen : Nat) (st : FmtState) (w : WordTiming) : FmtState :=
  if w.word = "" then st
  else
    let st1 :=
      if st.cur ≠ [] ∧ wordGap st w > gapT ∧
          (endsTerminalPy st.lastWordText = true ∨ minLen ≤ st.curLen)
      then commitPara st else st
    let st2 := { st1 with
      cur := st1.cur ++ [w.word],
      curLen := st1.curLen + w.word.length,
      lastWordText := w.word }
    match w.stop with
    | some e => { st2 with lastEnd := some e }
    | none => st2

/-- Emission of one paragraph block in the merge pass:
`re.sub(r"\s+", " ", "".join(block).strip()).strip()` (lines 94 and 99). -/
def emitBlock (b : List String) : String :=
  stripStr (collapseWS (stripStr (String.join b)))

/-- Worker for `mergePass`, structurally recursive on the successor list:
`b` is the block currently under consideration (the original block with any
shorter predecessors already prepended, matching the in-place update
`paras[i + 1] = block + paras[i + 1]` of line 96). -/
def mergeGo (minLen : Nat) (b : List String) : List (List String) → List String
  | [] => [emitBlock b]
  | b2 :: rest2 =>
    if (stripStr (String.join b)).length < minLen then mergeGo minLen (b ++ b2) rest2
    else emitBlock b :: mergeGo minLen b2 rest2

/-- Merge pass (lines 89-100): a committed paragraph whose stripped text is
shorter than the minimum is prepended onto its successor; otherwise (also
always for the final paragraph) its whitespace-collapsed text is emitted. -/
def mergePass (minLen : Nat) : List (List String) → List String
  | [] => []
  | b :: rest => mergeGo minLen b rest

/-- Embedding of `_format_paragraphs_words` (lines 44-103), with the two
module-level tunables `PARA_GAP` and `PARA_MIN_LEN` passed as arguments.
An empty word list yields `""`; otherwise the word loop runs, the final
buffer is committed, short paragraphs are merged forward, the fallback of
lines 101-102 rebuilds a single block when nothing was emitted, and the
blocks are joined by blank lines. -/
def _format_paragraphs_words (gapT : Int) (minLen : Nat) (words : List WordTiming) : String :=
  if words = [] then ""
  else
    let st := commitPara (words.foldl (stepWord gapT minLen) initFmtState)
    let merged := mergePass minLen st.paras
    let merged := if merged = [] then
        [stripStr (collapseWS (String.join (st.paras.foldl (· ++ ·) [])))]
      else merged
    stripStr (String.intercalate "\n\n" merged)

/-- Modelled from the spec: the specification's gap rule reads the gap as
`start - previous.end`, "zero if no previous word or missing timestamp", so
a previous word without an end timestamp forces a zero gap.  This step
differs from `stepWord` only in that the recorded end is overwritten by the
current word's (possibly absent) end timestamp on every appended word. -/
def stepWordSpecGap (gapT : Int) (minLen : Nat) (st : FmtState) (w : WordTiming) : FmtState :=
  if w.word = "" then st
  else
    let st1 :=
      if st.cur ≠ [] ∧ wordGap st w > gapT ∧
          (endsTerminalPy st.lastWordText = true ∨ minLen ≤ st.curLen)
      then commitPara st else st
    { st1 with
      cur := st1.cur ++ [w.word],
      curLen := st1.curLen + w.word.length,
      lastWordText := w.word,
      lastEnd := w.stop }

/-- Modelled from the spec: the Paragraph Formatter with the specification's
gap rule (`stepWordSpecGap`); everything else is as in the source. -/
def format_paragraphs_words_specgap (gapT : Int) (minLen : Nat) (words : List WordTiming) : String :=
  if words = [] then ""
  else
    let st := commitPara (words.foldl (stepWordSpecGap gapT minLen) initFmtState)
    let merged := mergePass minLen st.paras
    let merged := if merged = [] then
        [stripStr (collapseWS (String.join (st.paras.foldl (· ++ ·) [])))]
      else merged
    stripStr (String.intercalate "\n\n" merged)

/-! Section: concrete word sequences used by the Paragraph Formatter
claims. -/

/-- The word sequence of the claim about split-then-merge: `"Hello."` and
`"World"` with a 2.0-second silence gap between them (timestamps in
milliseconds). -/
def c4_words : List WordTiming :=
  [⟨"Hello.", some 0, some 500⟩, ⟨"World", some 2500, some 3000⟩]

/-- The same timing with the second word carrying a Whisper-style leading
space in its text. -/
def c4_words_spaced : List WordTiming :=
  [⟨"Hello.", some 0, some 500⟩, ⟨" World", some 2500, some 3000⟩]

/-- Three words where the middle word has no end timestamp: the silence
before `"C"` is measured by the source against the end of `"A."` (the most
recent recorded end), not against the absent end of `"B"`. -/
def c5_words : List WordTiming :=
  [⟨"A.", some 0, some 10000⟩, ⟨"B", some 11000, none⟩, ⟨"C", some 30000, some 40000⟩]

/-- Claim C4 counterexample: on the word sequence `["Hello.", "World"]` with
a 2.0 s gap, threshold 1.0 s and minimum length 40, the formatter yields
`"Hello.World"` — the merge pass concatenates the split paragraphs without
inserting a space — not the claimed `"Hello. World"`. -/
theorem c4_counterexample :
    _format_paragraphs_words PARA_GAP PARA_MIN_LEN c4_words = "Hello.World" ∧
    _format_paragraphs_words PARA_GAP PARA_MIN_LEN c4_words ≠ "Hello. World" := by
  decide

/-- Claim C4 (corrected): in the merge pass every committed paragraph whose
stripped text is below the minimum length is prepended onto the next
paragraph, and a final paragraph is emitted as-is even when short; on the
word sequence `["Hello.", "World"]` with a 2.0 s gap (threshold 1.0 s,
minimum length 40) the punctuation rule splits and the merge pass refolds,
but the fold concatenates the word texts without inserting a space, so the
single resulting paragraph is `"Hello.World"`; the claimed `"Hello. World"`
results only when the second word's text itself carries a leading space. -/
theorem c4_merge_refolds_short_paragraphs :
    (∀ (minLen : Nat) (b b2 : List String),
        (stripStr (String.join b)).length < minLen →
        mergePass minLen [b, b2] = [emitBlock (b ++ b2)]) ∧
    (∀ (minLen : Nat) (b : List String), mergePass minLen [b] = [emitBlock b]) ∧
    _format_paragraphs_words PARA_GAP PARA_MIN_LEN c4_words = "Hello.World" ∧
    _format_paragraphs_words PARA_GAP PARA_MIN_LEN c4_words_spaced = "Hello. World" := by
  refine ⟨fun minLen b b2 h => ?_, fun minLen b => rfl, by decide, by decide⟩
  simp [mergePass, mergeGo, h]

/-- Claim C4 witness: the general merge statements evaluated at concrete
blocks. -/
theorem c4_merge_refolds_witness :
    mergePass 40 [["Hi"], ["there"]] = ["Hithere"] ∧
    mergePass 40 [["Hi"]] = ["Hi"] := by
  have h := c4_merge_refolds_short_paragraphs
  exact ⟨(h.1 40 ["Hi"] ["there"] (by decide)).trans (by decide),
    (h.2.1 40 ["Hi"]).trans (by decide)⟩

/-- Claim C5 counterexample: the two formatters — the source's and the one
following the specification's gap rule ("zero if ... a timestamp is
missing") — disagree on `c5_words` with threshold 1.0 s and minimum length
1: the source splits before `"C"` (gap measured from the end of `"A."`),
the specification's rule does not (the previous word `"B"` has no end, so
its gap is zero). -/
theorem c5_counterexample :
    _format_paragraphs_words 1000 1 c5_words = "A.B\n\nC" ∧
    format_paragraphs_words_specgap 1000 1 c5_words = "A.BC" ∧
    _format_paragraphs_words 1000 1 c5_words ≠
      format_paragraphs_words_specgap 1000 1 c5_words := by
  decide

/-- Claim C5 (corrected): a new paragraph starts before a (nonempty) word
exactly when the gap — word start minus the most recent recorded end among
the previous words (zero when the word lacks a start or no previous word
recorded an end; a word lacking an end timestamp does not reset the
recorded end) — strictly exceeds the threshold AND either the previous
word ended with terminal punctuation or the buffer reached the minimum
length; an empty word text changes nothing, and nothing is committed while
the buffer is empty (a gap alone never splits). -/
theorem c5_split_characterisation (gapT : Int) (minLen : Nat)
    (st : FmtState) (w : WordTiming) :
    (w.word ≠ "" → st.cur ≠ [] →
      (stepWord gapT minLen st w).paras =
        (if wordGap st w > gapT ∧
            (endsTerminalPy st.lastWordText = true ∨ minLen ≤ st.curLen)
         then st.paras ++ [st.cur] else st.paras)) ∧
    (w.word = "" → stepWord gapT minLen st w = st) ∧
    (st.cur = [] → (stepWord gapT minLen st w).paras = st.paras) := by
  refine ⟨fun hw hcur => ?_, fun hw => by simp [stepWord, hw], fun hcur => ?_⟩
  · by_cases hc : wordGap st w > gapT ∧
        (endsTerminalPy st.lastWordText = true ∨ minLen ≤ st.curLen)
    · cases hstop : w.stop <;>
        simp [stepWord, hw, hcur, hc, hstop, commitPara]
    · cases hstop : w.stop <;>
        simp [stepWord, hw, hc, hstop]
  · by_cases hw : w.word = ""
    · simp [stepWord, hw]
    · cases hstop : w.stop <;>
        simp [stepWord, hw, hcur, hstop]

/-- Claim C5 witness: the split characterisation evaluated at a concrete
formatter state and word. -/
theorem c5_split_characterisation_witness :
    (stepWord 1000 1 ⟨[], ["A."], 2, some 10000, "A."⟩
      ⟨"B", some 20000, some 21000⟩).paras = [["A."]] := by
  have h := (c5_split_characterisation 1000 1 ⟨[], ["A."], 2, some 10000, "A."⟩
    ⟨"B", some 20000, some 21000⟩).1 (by decide) (by decide)
  exact h.trans (by decide)

/-! Section: Job Queue & Worker (`Transcriber._enqueue_job`, transcribe.py
lines 218-227, and `Transcriber._queue_worker`, lines 285-309).  The
cooperative scheduler is embedded as explicit state passing: producers call
`enqueue_job`; the single worker alternates `workerDequeue` (the
`await self._queue.get()` plus the in-flight double-check and marking) and
`workerFinish` (the end of `_do_transcription_job` plus the `finally`
block), with arbitrary enqueues interleaved between the two phases. -/

/-- Job source tag: `'slash' | 'context' | 'auto'` (transcribe.py line 108). -/
inductive JobSource
  | slash
  | context
  | auto
deriving DecidableEq

/-- The `TranscriptionJob` dataclass (lines 106-112): the borrowed
`voice_message` reference is represented by the message identity `msgId`
(`voice_message.id`, the only part of it the queue logic reads), the
optional requester and interaction by opaque numeric handles. -/
structure TranscriptionJob where
  source : JobSource
  msgId : Nat
  requester : Option Nat
  interaction : Option Nat
  remove_reaction : Bool
deriving DecidableEq

/-- Shared mutable state of the cog: the FIFO `asyncio.Queue` (line 124),
the in-flight set `_processing_ids` (line 125, a set of message ids,
represented as a duplicate-free list), and the ordered log of completed
deliveries (the `msg.reply` calls of `_do_transcription_job`), recorded to
state ordering claims. -/
structure QueueState where
  queue : List TranscriptionJob
  processing_ids : List Nat
  delivered : List Nat
deriving DecidableEq

/-- The empty initial state (constructor, lines 124-125). -/
def qempty : QueueState := ⟨[], [], []⟩

/-- Embedding of `_enqueue_job` (lines 218-227): if the message identity is
already in `_processing_ids` the call returns without touching anything;
otherwise the job is appended to the FIFO queue.  Note that the identity is
NOT added to `_processing_ids` here. -/
def enqueue_job (s : QueueState) (j : TranscriptionJob) : QueueState :=
  if j.msgId ∈ s.processing_ids then s
  else { s with queue := s.queue ++ [j] }

/-- Worker phase: between `self._queue.get()` and the end of the `finally`
block the worker is busy on exactly one job; otherwise it is idle awaiting
the next job. -/
inductive WorkerPhase
  | idle
  | busy (j : TranscriptionJob)
deriving DecidableEq

/-- Full system state: the shared queue state plus the worker phase. -/
structure WorkerState where
  qs : QueueState
  phase : WorkerPhase
deriving DecidableEq

/-- Lifting of `enqueue_job` to the full state (producers never touch the
worker phase). -/
def enqueueW (w : WorkerState) (j : TranscriptionJob) : WorkerState :=
  { w with qs := enqueue_job w.qs j }

/-- Embedding of the top of the worker loop (lines 287-293): an idle worker
pulls the head of the FIFO queue; if its identity is already in
`_processing_ids` the job is dropped (`task_done`, line 291-292) and the
worker stays idle, otherwise the identity is added to `_processing_ids`
and the worker becomes busy on that job.  In any other configuration
nothing happens. -/
def workerDequeue (w : WorkerState) : WorkerState :=
  match w.phase, w.qs.queue with
  | .idle, j :: rest =>
    if j.msgId ∈ w.qs.processing_ids then
      { w with qs := { w.qs with queue := rest } }
    else
      { qs := { w.qs with
                  queue := rest,
                  processing_ids := j.msgId :: w.qs.processing_ids },
        phase := .busy j }
  | _, _ => w

/-- Embedding of the completion of one job (lines 300-309): the delivery
performed by `_do_transcription_job` is recorded, and the `finally` block
unconditionally removes the identity from `_processing_ids`; the worker
returns to idle.  A failed job takes the same path (the exception is caught
at the job boundary), so `delivered` here records lifecycle completions in
order. -/
def workerFinish (w : WorkerState) : WorkerState :=
  match w.phase with
  | .busy j =>
    { qs := { w.qs with
                delivered := w.qs.delivered ++ [j.msgId],
                processing_ids := w.qs.processing_ids.erase j.msgId },
      phase := .idle }
  | .idle => w

/-- First job of the duplicate-submission counterexample (message id 5). -/
def c1_job1 : TranscriptionJob := ⟨.auto, 5, none, none, true⟩

/-- Second submission of the same message id 5 from another entry point. -/
def c1_job2 : TranscriptionJob := ⟨.slash, 5, some 1, some 1, false⟩

/-- Claim C1 counterexample: submitting message id 5 twice while the first
job is still waiting in the queue (so before any worker dequeue) is NOT a
no-op — the queue grows from one to two entries, because `_enqueue_job`
checks `_processing_ids` but membership is only added when the worker
dequeues the job, not at enqueue time (the first enqueue leaves
`_processing_ids` empty). -/
theorem c1_counterexample :
    (enqueue_job qempty c1_job1).queue.length = 1 ∧
    (enqueue_job (enqueue_job qempty c1_job1) c1_job2).queue.length = 2 ∧
    (enqueue_job qempty c1_job1).processing_ids = [] := by
  decide

/-- Claim C1 (corrected): membership in the in-flight set is added when the
worker dequeues a job whose identity is not yet in the set (not at
enqueue), and removed only by the `finally` block when that job's lifecycle
completes; a second submission of a message identity is a no-op — leaving
queue, set and deliveries unchanged — exactly while that identity is in the
in-flight set, i.e. while the worker is processing it; and a dequeued job
whose identity is already in-flight is dropped without processing. -/
theorem c1_inflight_lifecycle (s : QueueState) (j : TranscriptionJob)
    (w : WorkerState) (rest : List TranscriptionJob) :
    (j.msgId ∈ s.processing_ids → enqueue_job s j = s) ∧
    (w.phase = .idle → w.qs.queue = j :: rest → j.msgId ∉ w.qs.processing_ids →
      (workerDequeue w).qs.processing_ids = j.msgId :: w.qs.processing_ids ∧
      (workerDequeue w).phase = .busy j) ∧
    (w.phase = .busy j →
      (workerFinish w).qs.processing_ids = w.qs.processing_ids.erase j.msgId ∧
      (workerFinish w).phase = .idle) ∧
    (w.phase = .idle → w.qs.queue = j :: rest → j.msgId ∈ w.qs.processing_ids →
      workerDequeue w = { w with qs := { w.qs with queue := rest } }) := by
  obtain ⟨⟨q, p, d⟩, ph⟩ := w
  refine ⟨fun h => by simp [enqueue_job, h], fun hph hq hnot => ?_,
    fun hph => ?_, fun hph hq hmem => ?_⟩
  · dsimp at hph hq; subst hph; subst hq
    simp [workerDequeue, hnot]
  · dsimp at hph; subst hph
    simp [workerFinish]
  · dsimp at hph hq; subst hph; subst hq
    simp [workerDequeue, hmem]

/-- Claim C1 witness: the lifecycle facts evaluated on concrete states; the
worker dequeues message id 7 into the in-flight set, a resubmission of id 7
against an in-flight set containing it is a no-op, and finishing the job
removes it again. -/
theorem c1_inflight_lifecycle_witness :
    enqueue_job ⟨[], [7], []⟩ ⟨.auto, 7, none, none, true⟩ = ⟨[], [7], []⟩ ∧
    (workerDequeue ⟨⟨[⟨.auto, 7, none, none, true⟩], [], []⟩, .idle⟩).qs.processing_ids = [7] ∧
    (workerFinish ⟨⟨[], [7], []⟩, .busy ⟨.auto, 7, none, none, true⟩⟩).qs.processing_ids = [] := by
  have h1 := (c1_inflight_lifecycle ⟨[], [7], []⟩ ⟨.auto, 7, none, none, true⟩
    ⟨⟨[⟨.auto, 7, none, none, true⟩], [], []⟩, .idle⟩ []).1 (by decide)
  have h2 := ((c1_inflight_lifecycle ⟨[], [7], []⟩ ⟨.auto, 7, none, none, true⟩
    ⟨⟨[⟨.auto, 7, none, none, true⟩], [], []⟩, .idle⟩ []).2.1 rfl rfl (by decide)).1
  have h3 := ((c1_inflight_lifecycle ⟨[], [7], []⟩ ⟨.auto, 7, none, none, true⟩
    ⟨⟨[], [7], []⟩, .busy ⟨.auto, 7, none, none, true⟩⟩ []).2.2.1 rfl).1
  exact ⟨h1, h2.trans (by decide), h3.trans (by decide)⟩

/-- Claim C6 (confirmed): three jobs with pairwise-new message identities
submitted in order M1, M2, M3 — M1 dequeued first (the worker becomes busy
on it), M2 and M3 enqueued while the worker is busy — are delivered in
submission order M1, M2, M3, the worker completing each job before
dequeuing the next, regardless of the jobs' source tags. -/
theorem c6_fifo_delivery_order (j1 j2 j3 : TranscriptionJob)
    (h21 : j2.msgId ≠ j1.msgId) (h31 : j3.msgId ≠ j1.msgId) :
    (workerFinish (workerDequeue (workerFinish (workerDequeue (workerFinish
        (enqueueW (enqueueW (workerDequeue (enqueueW ⟨qempty, .idle⟩ j1)) j2)
          j3)))))).qs.delivered = [j1.msgId, j2.msgId, j3.msgId] := by
  simp [enqueueW, enqueue_job, workerDequeue, workerFinish, qempty, h21, h31]

/-- Claim C6 witness: the FIFO delivery order evaluated on three concrete
jobs, one from each submission path. -/
theorem c6_fifo_delivery_order_witness :
    (workerFinish (workerDequeue (workerFinish (workerDequeue (workerFinish
        (enqueueW
          (enqueueW
            (workerDequeue (enqueueW ⟨qempty, .idle⟩ ⟨.auto, 1, none, none, true⟩))
            ⟨.slash, 2, some 9, some 9, false⟩)
          ⟨.context, 3, some 8, some 8, false⟩)))))).qs.delivered = [1, 2, 3] := by
  exact c6_fifo_delivery_order ⟨.auto, 1, none, none, true⟩
    ⟨.slash, 2, some 9, some 9, false⟩ ⟨.context, 3, some 8, some 8, false⟩
    (by decide) (by decide)

/-! Section: Detector (`msg_has_voice_note`, `msg_has_audio_attachment`,
`msg_is_transcribable`, transcribe.py lines 378-398). -/

/-- ASCII lower-casing of one character; Python `str.lower()` restricted to
the ASCII range, which is all the detector compares (MIME prefixes and
filename extensions are ASCII). -/
def lowerChar (c : Char) : Char :=
  if 'A' ≤ c ∧ c ≤ 'Z' then Char.ofNat (c.toNat + 32) else c

/-- Model of Python `str.lower()`. -/
def lowerStr (s : String) : String := String.mk (s.data.map lowerChar)

/-- Whether the first list begins with the second (Python `str.startswith`). -/
def leadsWith : List Char → List Char → Bool
  | _, [] => true
  | [], _ :: _ => false
  | c :: cs, d :: ds => c = d && leadsWith cs ds

/-- Whether the first list ends with the second (Python `str.endswith`). -/
def trailsWith (cs pat : List Char) : Bool := leadsWith cs.reverse pat.reverse

/-- A message attachment as read by the detector: optional filename and
optional declared content type (both nullable in the platform API). -/
structure DiscordAttachment where
  filename : Option String
  content_type : Option String
deriving DecidableEq

/-- A platform message as read by the detector: its attachments and the raw
numeric `flags.value`. -/
structure DiscordMessage where
  attachments : List DiscordAttachment
  flags : Nat
deriving DecidableEq

/-- Embedding of `msg_has_voice_note` (lines 378-383): false for a missing
message; false when the attachment list is empty or `flags.value >> 13` is
zero (Python truthiness of the shifted integer); true otherwise. -/
def msg_has_voice_note (om : Option DiscordMessage) : Bool :=
  match om with
  | none => false
  | some m => if m.attachments = [] ∨ m.flags >>> 13 = 0 then false else true

/-- `AUDIO_EXTS` (line 385). -/
def AUDIO_EXTS : List String := [".mp3", ".wav", ".ogg", ".oga", ".opus", ".m4a", ".flac"]

/-- One attachment's test in the loop of lines 390-394: lower-cased content
type starts with `audio/`, or lower-cased filename ends with an allowed
extension (absent fields default to the empty string). -/
def attachment_is_audio (att : DiscordAttachment) : Bool :=
  let name := lowerStr (att.filename.getD "")
  let ct := lowerStr (att.content_type.getD "")
  leadsWith ct.data "audio/".data ||
    AUDIO_EXTS.any (fun ext => trailsWith name.data ext.data)

/-- Embedding of `msg_has_audio_attachment` (lines 387-395). -/
def msg_has_audio_attachment (om : Option DiscordMessage) : Bool :=
  match om with
  | none => false
  | some m =>
    if m.attachments = [] then false else m.attachments.any attachment_is_audio

/-- Embedding of `msg_is_transcribable` (lines 397-398). -/
def msg_is_transcribable (om : Option DiscordMessage) : Bool :=
  msg_has_voice_note om || msg_has_audio_attachment om

/-- Modelled from the spec: "a platform-specific voice-message flag is set".
The platform's voice-message flag is the single bit 13 of the message flags
value (the shift amount the source uses); this predicate tests exactly that
bit, whereas the source tests the whole shifted value. -/
def voice_flag_bit_set (flags : Nat) : Bool := Nat.testBit flags 13

/-- A message whose only flag is bit 14 and whose only attachment is an
image: no voice-message flag, no audio attachment. -/
def c2_msg : DiscordMessage := ⟨[⟨some "x.png", some "image/png"⟩], 16384⟩

/-- Claim C2 counterexample: a message with an image attachment and flags
value `2^14` (bit 13 clear) has the voice-message flag unset and no
audio-typed attachment, yet `msg_is_transcribable` returns true, because
`msg_has_voice_note` tests `flags >> 13 != 0`, which any flag bit at
position 13 or above satisfies. -/
theorem c2_counterexample :
    msg_is_transcribable (some c2_msg) = true ∧
    voice_flag_bit_set c2_msg.flags = false ∧
    msg_has_audio_attachment (some c2_msg) = false := by
  decide

/-- Claim C2 (corrected): `msg_has_voice_note` returns true iff the message
is present, carries at least one attachment, and its flags value shifted
right by 13 is nonzero (some flag bit at position ≥ 13 set — a superset of
the voice-message flag); it is false on a missing message; and every
message with no flag bit at position ≥ 13 and no audio-typed attachment is
not transcribable. -/
theorem c2_voice_note_gate (m : DiscordMessage) :
    msg_has_voice_note none = false ∧
    (msg_has_voice_note (some m) = true ↔
      m.attachments ≠ [] ∧ m.flags >>> 13 ≠ 0) ∧
    (m.flags >>> 13 = 0 → msg_has_audio_attachment (some m) = false →
      msg_is_transcribable (some m) = false) := by
  refine ⟨rfl, ?_, fun h1 h2 => ?_⟩
  · by_cases ha : m.attachments = []
    · simp [msg_has_voice_note, ha]
    · by_cases hf : m.flags >>> 13 = 0
      · simp [msg_has_voice_note, ha, hf]
      · simp [msg_has_voice_note, ha, hf]
  · simp [msg_is_transcribable, msg_has_voice_note, h1, h2]

/-- Claim C2 witness: the gate evaluated on a genuine voice note (one
attachment, flags exactly `2^13`) and on a flagless, attachment-free
message. -/
theorem c2_voice_note_gate_witness :
    msg_has_voice_note (some ⟨[⟨some "a.ogg", some "audio/ogg"⟩], 8192⟩) = true ∧
    msg_is_transcribable (some ⟨[], 0⟩) = false := by
  have h1 := (c2_voice_note_gate ⟨[⟨some "a.ogg", some "audio/ogg"⟩], 8192⟩).2.1.mpr
    ⟨by decide, by decide⟩
  have h2 := (c2_voice_note_gate ⟨[], 0⟩).2.2 (by decide) (by decide)
  exact ⟨h1, h2⟩

/-- The attachment `transcribe_msg` reads: `msg.attachments[0]`
(transcribe.py line 404); `none` models the `IndexError` on an empty list. -/
def chosenAttachment (m : DiscordMessage) : Option DiscordAttachment :=
  m.attachments.head?

/-- Claim C10 (confirmed): a transcribable message has at least one
attachment, and `transcribe_msg` reads exactly the first one
(`msg.attachments[0]`); the chosen attachment depends only on the head of
the attachment list, so audio carried in any later attachment is never the
one transcribed. -/
theorem c10_first_attachment_only (m : DiscordMessage) :
    (msg_is_transcribable (some m) = true →
      ∃ a rest, m.attachments = a :: rest ∧ chosenAttachment m = some a) ∧
    (∀ m₂ : DiscordMessage, m.attachments.head? = m₂.attachments.head? →
      chosenAttachment m = chosenAttachment m₂) := by
  refine ⟨fun h => ?_, fun m₂ h => h⟩
  cases hatt : m.attachments with
  | nil =>
    rw [msg_is_transcribable, msg_has_voice_note, msg_has_audio_attachment] at h
    simp [hatt] at h
  | cons a rest =>
    exact ⟨a, rest, rfl, by simp [chosenAttachment, hatt]⟩

/-- Claim C10 witness: the first-attachment fact evaluated on a concrete
voice note with two attachments. -/
theorem c10_first_attachment_only_witness :
    chosenAttachment ⟨[⟨some "v.ogg", some "audio/ogg"⟩, ⟨some "w.mp3", some "audio/mpeg"⟩], 8192⟩
      = some ⟨some "v.ogg", some "audio/ogg"⟩ := by
  obtain ⟨a, rest, h1, h2⟩ :=
    (c10_first_attachment_only
      ⟨[⟨some "v.ogg", some "audio/ogg"⟩, ⟨some "w.mp3", some "audio/mpeg"⟩], 8192⟩).1
      (by decide)
  injection h1 with ha _
  rw [h2, ← ha]

/-! Section: Message Renderer (`build_transcription_message`, transcribe.py
lines 312-375).  The numeric and datetime formatting of the header leaves —
duration `mm:ss` from a float, probability percentage, `<t:...:f>` epoch
stamp, `strftime` timestamp — operate on external float/datetime values and
are taken as preformatted string inputs; all text logic the claims concern
(placeholder normalization, preview truncation with the newline cut, footer
and attachment decision, filename assembly) is modelled faithfully. -/

/-- `PREVIEW_LIMIT` (line 329). -/
def PREVIEW_LIMIT : Nat := 600

/-- `FILE_THRESHOLD` (line 330). -/
def FILE_THRESHOLD : Nat := 900

/-- Python `s[:n]` on code points. -/
def takeChars (n : Nat) (s : String) : String := String.mk (s.data.take n)

/-- Python `s[-n:]` on code points (the whole string when shorter). -/
def lastChars (n : Nat) (s : String) : String :=
  String.mk (s.data.drop (s.data.length - n))

/-- Python `s.rfind("\n")`: index of the last newline, if any. -/
def rfindNL (cs : List Char) : Option Nat :=
  match cs.reverse.findIdx? (· = '\n') with
  | some i => some (cs.length - 1 - i)
  | none => none

/-- Python `str.splitlines()` for newline-only input: split on `'\n'`,
without a trailing empty piece. -/
def splitNL : List Char → List (List Char)
  | [] => [[]]
  | c :: cs =>
    let r := splitNL cs
    if c = '\n' then [] :: r
    else
      match r with
      | h :: t => (c :: h) :: t
      | [] => [[c]]

/-- Python `str.splitlines()` (the source only ever feeds it `'\n'`-separated
text). -/
def splitLinesPy (s : String) : List String :=
  match s.data with
  | [] => []
  | cs => (splitNL cs).map String.mk

/-- `quote_block` (lines 341-342): prefix every line with `"> "`, collapsing
whitespace-only lines to a bare `"> "`. -/
def quote_block (txt : String) : String :=
  String.intercalate "\n"
    ((splitLinesPy txt).map (fun line =>
      if stripStr line = "" then "> " else "> " ++ line))

/-- Normalization of line 328:
`(transcribed_text or "(empty transcription)").strip()`. -/
def normalizedFullText (transcribed_text : String) : String :=
  stripStr (if transcribed_text = "" then "(empty transcription)" else transcribed_text)

/-- Characters the author slug keeps: `[A-Za-z0-9._-]` (line 370). -/
def slugAllowed (c : Char) : Bool :=
  c.isAlpha || c.isDigit || c = '.' || c = '_' || c = '-'

/-- Helper for the slug: `re.sub(r"[^A-Za-z0-9._-]+", "_", raw)` replaces
each maximal run of disallowed characters by one underscore. -/
def sanitizeAux : Bool → List Char → List Char
  | _, [] => []
  | inRun, c :: cs =>
    if slugAllowed c then c :: sanitizeAux false cs
    else if inRun then sanitizeAux true cs
    else '_' :: sanitizeAux true cs

/-- Author slug of lines 369-370: sanitize, cap at 32 characters, fall back
to the author's numeric id when the result is empty. -/
def author_slug (raw : String) (authorIdStr : String) : String :=
  let s := String.mk ((sanitizeAux false raw.data).take 32)
  if s = "" then authorIdStr else s

/-- Source-message metadata consumed by the renderer, with externally
formatted leaves preformatted as strings (see the section comment). -/
structure RenderMeta where
  authorName : String
  authorIdStr : String
  msgIdStr : String
  timestampStr : String
  jumpUrl : Option String
  langDisplay : String
  probDisplay : String
  durStr : String
  procStr : String
  tsForName : String
  requesterStr : Option String
deriving DecidableEq

/-- Header assembly of lines 351-359. -/
def headerOf (meta : RenderMeta) : String :=
  let bits := [meta.authorName,
    meta.langDisplay ++ " " ++ meta.probDisplay ++ " " ++ meta.durStr ++
      " (⏱" ++ meta.procStr ++ "s)",
    meta.timestampStr,
    (match meta.jumpUrl with
     | some u => u
     | none => meta.msgIdStr)]
  let bits := bits ++
    (match meta.requesterStr with
     | some r => ["requested by " ++ r]
     | none => [])
  String.intercalate " | " bits

/-- Embedding of `build_transcription_message` (lines 312-375), returning
the content string and the optional file as (filename, payload).  The
preview is the first 600 characters; when truncation occurred and the last
120 preview characters contain a newline, the preview is cut at the last
newline provided its index exceeds 400; the footer marker and the file are
produced exactly when the text was truncated or exceeds 900 characters. -/
def build_transcription_message (transcribed_text : String) (meta : RenderMeta) :
    String × Option (String × String) :=
  let full_text := normalizedFullText transcribed_text
  let truncated := PREVIEW_LIMIT < full_text.length
  let preview := takeChars PREVIEW_LIMIT full_text
  let preview :=
    if truncated then
      let slice_tail := lastChars 120 preview
      if '\n' ∈ slice_tail.data then
        match rfindNL preview.data with
        | some cut =>
          if 0 < cut ∧ PREVIEW_LIMIT - 200 < cut then takeChars cut preview
          else preview
        | none => preview
      else preview
    else preview
  let header := headerOf meta
  let quoted := quote_block preview
  let footer :=
    if truncated ∨ FILE_THRESHOLD < full_text.length then
      "> (truncated, full transcript attached as file)"
    else ""
  let content := "> **" ++ header ++ "**\n" ++ quoted ++ "\n" ++ footer
  let file : Option (String × String) :=
    if truncated ∨ FILE_THRESHOLD < full_text.length then
      some ("vm_" ++ author_slug meta.authorName meta.authorIdStr ++ "_" ++
        meta.tsForName ++ "_" ++ meta.msgIdStr ++ ".txt", full_text)
    else none
  (content, file)

/-- Concrete metadata for the renderer claims. -/
def c3_meta : RenderMeta :=
  ⟨"alice", "42", "1001", "<t:1700000000:f>",
    some "https://discord.com/channels/1/2/1001", "en", "99%", "0:30",
    "1.00", "20240101-000000", none⟩

/-- A transcription of exactly 899 characters. -/
def c3_text899 : String := String.mk (List.replicate 899 'a')

set_option maxRecDepth 40000 in
/-- Claim C3 counterexample: a transcription of exactly 899 characters DOES
produce a full-text attachment — 899 exceeds the 600-character preview
limit, so the text is truncated and the attachment is forced by the first
disjunct — contradicting the claim that 899 characters produce none. -/
theorem c3_counterexample :
    (build_transcription_message c3_text899 c3_meta).2.isSome = true ∧
    c3_text899.length = 899 := by
  decide

set_option maxRecDepth 40000 in
/-- Claim C3 (corrected): the renderer produces a full-text attachment
exactly when the displayed text was truncated (normalized text longer than
the 600-character preview limit) or the untruncated text exceeds the
900-character file threshold — equivalently, exactly when the normalized
text exceeds 600 characters, the second disjunct being subsumed; in
particular 899 characters (truncated) DO produce an attachment, and 600
characters produce none. -/
theorem c3_attachment_condition (t : String) (meta : RenderMeta) :
    ((build_transcription_message t meta).2.isSome =
      (decide (PREVIEW_LIMIT < (normalizedFullText t).length) ||
        decide (FILE_THRESHOLD < (normalizedFullText t).length))) ∧
    ((build_transcription_message (String.mk (List.replicate 600 'a')) meta).2
      = none) := by
  constructor
  · by_cases h6 : PREVIEW_LIMIT < (normalizedFullText t).length
    · simp [build_transcription_message, h6]
    · by_cases h9 : FILE_THRESHOLD < (normalizedFullText t).length
      · simp [build_transcription_message, h6, h9]
      · simp [build_transcription_message, h6, h9]
  · rfl

/-! Section: Transcription Engine Adapter (`transcribe_msg`, transcribe.py
lines 401-457).  Two aspects are embedded separately: the temp-file
lifecycle (which IO steps can fail and what each failure leaves behind),
and the pure text-assembly logic of the `_run` closure. -/

/-- Which of the adapter's fallible IO steps succeed in a given run:
`readOk` is `await attachment.read()` (line 405); `writeOk` is `tmp.write`
inside the `with NamedTemporaryFile(suffix=ext, delete=False)` block
(lines 410-412); `modelOk` is the `run_in_executor(None, _run)` call
(line 439); `removeOk` is `os.remove(tmp_path)` in the `finally` block
(lines 441-444), whose `OSError` is swallowed. -/
structure TempFileEnv where
  readOk : Bool
  writeOk : Bool
  modelOk : Bool
  removeOk : Bool
deriving DecidableEq

/-- Observable outcome of one `transcribe_msg` run for the temp resource:
whether the temporary file was created, whether it still exists after the
call returns or raises, and whether the call raised. -/
structure TempFileOutcome where
  tempCreated : Bool
  tempRemains : Bool
  raised : Bool
deriving DecidableEq

/-- Embedding of the temp-file lifecycle of `transcribe_msg`, following the
Python control flow: a failed attachment read raises before any file is
created; a failed `tmp.write` raises inside the `with` block, whose exit
closes but — `delete=False` — does not delete the file, and the exception
propagates before the `try/finally` is entered, so the file is left behind;
once the write succeeded, the `try/finally` removes the file on both the
success and the exception path, unless `os.remove` itself fails with an
`OSError`, which is swallowed. -/
def transcribe_msg_tempfile (env : TempFileEnv) : TempFileOutcome :=
  if !env.readOk then ⟨false, false, true⟩
  else if !env.writeOk then ⟨true, true, true⟩
  else if env.modelOk then ⟨true, !env.removeOk, false⟩
  else ⟨true, !env.removeOk, true⟩

/-- Claim C8 counterexample: when the write to the temporary file fails
(e.g. the disk fills while `tmp.write(voice_msg_bytes)` runs), the file has
been created with `delete=False`, the `with` block's exit does not delete
it, and the `try/finally` containing `os.remove` is never entered — the
invocation raises and leaves the temporary file behind. -/
theorem c8_counterexample :
    (transcribe_msg_tempfile ⟨true, false, true, true⟩).tempCreated = true ∧
    (transcribe_msg_tempfile ⟨true, false, true, true⟩).tempRemains = true ∧
    (transcribe_msg_tempfile ⟨true, false, true, true⟩).raised = true := by
  decide

/-- Claim C8 (corrected): once the temporary file has been written
successfully, the `finally` block removes it on every exit path — model
success or model exception alike — provided the `os.remove` call itself
succeeds; the uncovered exits are a failure of the write itself (file left
behind, see the counterexample) and a swallowed `OSError` from
`os.remove`. -/
theorem c8_temp_removed_after_write (env : TempFileEnv)
    (hw : env.writeOk = true) (hr : env.removeOk = true) :
    (transcribe_msg_tempfile env).tempRemains = false := by
  obtain ⟨r, w, m, rm⟩ := env
  cases r <;> cases m <;> simp_all [transcribe_msg_tempfile]

/-- Claim C8 witness: the cleanup guarantee evaluated on the exception path
(model invocation fails, remove succeeds). -/
theorem c8_temp_removed_witness :
    (transcribe_msg_tempfile ⟨true, true, false, true⟩).tempRemains = false :=
  c8_temp_removed_after_write ⟨true, true, false, true⟩ rfl rfl

/-- A segment as returned by the model (duck-typed): optional `text` and
optional list of word timings. -/
structure WhisperSegment where
  text : Option String
  words : Option (List WordTiming)
deriving DecidableEq

/-- Failure mode of the `_run` closure: reading `text_out` when no branch
assigned it raises `UnboundLocalError`. -/
inductive RunFailure
  | unboundLocal
deriving DecidableEq

/-- Embedding of the text assembly in the `_run` closure (lines 415-438):
segments with falsy `text` are dropped (line 422); with paragraph mode on,
word timings are gathered from the kept segments (lines 425-430) and
`text_out` is assigned only under `if words:` (lines 431-432); with
paragraph mode off, `text_out` is the stripped join of the segment texts
(line 434).  `text_out : Option String` tracks whether the Python local was
ever assigned; returning it unassigned is the `UnboundLocalError`. -/
def runTranscribe (paraEnabled wtEnabled : Bool) (gapT : Int) (minLen : Nat)
    (segs : List WhisperSegment) : Except RunFailure String :=
  let seg_list := segs.filter (fun s => s.text.getD "" ≠ "")
  let text_out : Option String :=
    if paraEnabled then
      let words : List WordTiming :=
        if wtEnabled then
          seg_list.foldl (fun acc s =>
            match s.words with
            | some ws => if ws = [] then acc else acc ++ ws
            | none => acc) []
        else []
      if words = [] then none
      else some (_format_paragraphs_words gapT minLen words)
    else
      some (stripStr (String.intercalate " "
        (seg_list.map (fun s => stripStr (s.text.getD "")))))
  match text_out with
  | some t => .ok t
  | none => .error .unboundLocal

/-- The final normalization of line 457: `text or "(empty transcription)"`
applied to a successful `_run` result (an exception propagates). -/
def transcribe_msg_text (r : Except RunFailure String) : Except RunFailure String :=
  match r with
  | .ok t => .ok (if t = "" then "(empty transcription)" else t)
  | .error e => .error e

/-- Claim C9 (code_bug): with paragraph mode enabled (the default), the
`_run` closure leaves `text_out` unassigned — and so raises
`UnboundLocalError` instead of returning any text — whenever no word
timings are collected: on an empty segment list, on segments carrying no
word timings, and always when word timings are disabled by configuration;
the placeholder normalization is reached only on the paragraph-disabled
path, where an empty join is indeed normalized to
`"(empty transcription)"`. -/
theorem c9_unbound_text_out :
    runTranscribe true true PARA_GAP PARA_MIN_LEN [] = .error .unboundLocal ∧
    runTranscribe true true PARA_GAP PARA_MIN_LEN [⟨some "Hi.", none⟩]
      = .error .unboundLocal ∧
    runTranscribe true false PARA_GAP PARA_MIN_LEN
      [⟨some "Hi.", some [⟨"Hi.", some 0, some 500⟩]⟩] = .error .unboundLocal ∧
    transcribe_msg_text (runTranscribe false false PARA_GAP PARA_MIN_LEN [])
      = .ok "(empty transcription)" :=
  ⟨rfl, rfl, rfl, rfl⟩

/-! Section: Target Resolver (`resolve_target_message` and
`MESSAGE_LINK_RE`, transcribe.py lines 501-521). -/

/-- Literal matcher: drops the expected character sequence from the front,
returning the remainder, or nothing on a mismatch. -/
def dropLit : List Char → List Char → Option (List Char)
  | cs, [] => some cs
  | [], _ :: _ => none
  | c :: cs, d :: ds => if c = d then dropLit cs ds else none

/-- Maximal leading digit run (the behaviour of a greedy `\d+`). -/
def takeDigits : List Char → List Char × List Char
  | [] => ([], [])
  | c :: cs =>
    if c.isDigit then
      let (ds, r) := takeDigits cs
      (c :: ds, r)
    else ([], c :: cs)

/-- Numeric value of a digit run (Python `int`). -/
def digitsVal (ds : List Char) : Nat :=
  ds.foldl (fun n c => 10 * n + (c.toNat - 48)) 0

/-- One `(\d+)` capture group: at least one digit, greedily. -/
def parseNumGroup (cs : List Char) : Option (Nat × List Char) :=
  match takeDigits cs with
  | ([], _) => none
  | (ds, r) => some (digitsVal ds, r)

/-- Embedding of `MESSAGE_LINK_RE.match` (line 501):
`https://(?:ptb\.|canary\.)?discord(?:app)?\.com/channels/(\d+)/(\d+)/(\d+)`
anchored at the start of the string (Python `re.match`), trailing input
ignored; returns the three captured identifiers. -/
def parseMessageLink (s : String) : Option (Nat × Nat × Nat) := do
  let cs ← dropLit s.data "https://".data
  let cs := match dropLit cs "ptb.".data with
    | some r => r
    | none =>
      match dropLit cs "canary.".data with
      | some r => r
      | none => cs
  let cs ← dropLit cs "discord".data
  let cs := match dropLit cs "app".data with
    | some r => r
    | none => cs
  let cs ← dropLit cs ".com/channels/".data
  let (g, cs) ← parseNumGroup cs
  let cs ← dropLit cs "/".data
  let (c, cs) ← parseNumGroup cs
  let cs ← dropLit cs "/".data
  let (m, _) ← parseNumGroup cs
  pure (g, c, m)

/-- The parts of the invoking interaction the resolver reads: the guild of
the interaction (absent in direct messages) and whether the current channel
object has a `fetch_message` method. -/
structure InteractionCtx where
  guildId : Option Nat
  channelHasFetch : Bool
deriving DecidableEq

/-- Python `str.isdigit()`: nonempty and all digits. -/
def isdigitStr (s : String) : Bool :=
  !s.data.isEmpty && s.data.all Char.isDigit

/-- Embedding of `resolve_target_message` (lines 504-521), generic in the
message type `α` returned by the platform.  The external fetches are
oracles returning `Option α`: `fetchLinked channelId messageId` models
`get_channel`/`fetch_channel` followed by `fetch_message`, and
`fetchHere messageId` models `interaction.channel.fetch_message`; a `none`
covers the swallowed `NotFound`/`Forbidden`/`HTTPException` (lines
519-520).  The input is stripped; a deep link whose guild differs from a
guild-scoped interaction's guild is rejected before any fetch; a bare
numeric id is fetched in the current channel when it supports fetching;
anything else resolves to nothing. -/
def resolve_target_message {α : Type} (ctx : InteractionCtx)
    (fetchLinked : Nat → Nat → Option α) (fetchHere : Nat → Option α)
    (raw : String) : Option α :=
  let raw := stripStr raw
  match parseMessageLink raw with
  | some (gid, cid, mid) =>
    match ctx.guildId with
    | some g => if g ≠ gid then none else fetchLinked cid mid
    | none => fetchLinked cid mid
  | none =>
    if isdigitStr raw && ctx.channelHasFetch then fetchHere (digitsVal raw.data)
    else none

/-- Claim C7 (confirmed): for every guild-scoped invocation, a deep link
whose extracted guild identifier differs from the interaction's guild
resolves to none — whatever the fetch oracles would return, i.e. even when
the referenced message id is valid. -/
theorem c7_cross_guild_link_rejected {α : Type} (ctx : InteractionCtx)
    (fetchLinked : Nat → Nat → Option α) (fetchHere : Nat → Option α)
    (raw : String) (gid cid mid g : Nat)
    (hparse : parseMessageLink (stripStr raw) = some (gid, cid, mid))
    (hguild : ctx.guildId = some g) (hne : g ≠ gid) :
    resolve_target_message ctx fetchLinked fetchHere raw = none := by
  simp [resolve_target_message, hparse, hguild, hne]

/-- Claim C7 witness: a valid deep link into guild 1 submitted from guild
99, with oracles that would successfully return a message. -/
theorem c7_cross_guild_link_rejected_witness :
    resolve_target_message ⟨some 99, true⟩ (fun _ _ => some 7) (fun _ => some 7)
      "https://discord.com/channels/1/2/3" = (none : Option Nat) :=
  c7_cross_guild_link_rejected ⟨some 99, true⟩ (fun _ _ => some 7) (fun _ => some 7)
    "https://discord.com/channels/1/2/3" 1 2 3 99 (by decide) rfl (by decide)
